import Mathlib

/-!
Verification of the goddd MongoDB repository layer and booking service.

The Go source consists of two variants of a `mongo` package (a padded
variant whose cargo `Store` additionally upserts a filler "garbage"
record, and a plain variant whose repositories are wrapped in
timing-instrumented delegating wrappers) together with the `booking`
service package.  MongoDB collections are embedded as Lean lists of
documents kept in insertion order; `Upsert` with a key selector replaces
the first document whose key matches and appends otherwise; `Find(..).One`
returns the first matching document; `Find(..).All` without a sort returns
the documents in stored order.  Code of the repository that is not under
src/ (the `cargo` package's aggregate operations and delivery derivation
engine) is modelled from the specification, and each such definition is
marked accordingly in its doc comment.
-/

namespace Goddd

/-- Tracking identity of a cargo: an opaque token, `cargo.TrackingID` in Go. -/
abbrev TrackingID := String

/-- United nations location code, `location.UNLocode` in Go. -/
abbrev UNLocode := String

/-- Voyage number, `voyage.Number` in Go. -/
abbrev VoyageNumber := String

/-- Timestamps (`time.Time` in Go) embedded as naturals. -/
abbrev Timestamp := Nat

/-- The error values the embedded code can surface: `cargo.ErrUnknown`,
`location.ErrUnknown`, `voyage.ErrUnknown`, `booking.ErrInvalidArgument`,
the InvalidState failure of route specification, and a raw
`mgo.ErrNotFound` propagated unmapped by `Remove`. -/
inductive GoError where
  | cargoErrUnknown
  | locationErrUnknown
  | voyageErrUnknown
  | errInvalidArgument
  | errInvalidState
  | mgoErrNotFound
deriving Repr, DecidableEq

/-- Handling event type: Receive, Load, Unload, Customs, Claim. -/
inductive HandlingEventType where
  | receive
  | load
  | unload
  | customs
  | claim
deriving Repr, DecidableEq

/-- The activity part of a handling event: type, location, and an optional
voyage (present only for Load/Unload). -/
structure HandlingActivity where
  eventType : HandlingEventType
  location : UNLocode
  voyageNumber : Option VoyageNumber
deriving Repr, DecidableEq

/-- One observed handling event: tracking identity, activity, completion
time (when it happened) and registration time (when it was recorded). -/
structure HandlingEvent where
  trackingID : TrackingID
  activity : HandlingActivity
  completionTime : Timestamp
  registrationTime : Timestamp
deriving Repr, DecidableEq

/-- The ordered event log returned for one tracking identity
(`cargo.HandlingHistory` in Go). -/
structure HandlingHistory where
  handlingEvents : List HandlingEvent
deriving Repr, DecidableEq

/-- Route specification: origin, destination and arrival deadline; an
absent deadline imposes no deadline check. -/
structure RouteSpecification where
  origin : UNLocode
  destination : UNLocode
  arrivalDeadline : Option Timestamp
deriving Repr, DecidableEq

/-- One voyage segment of an itinerary. -/
structure Leg where
  voyageNumber : VoyageNumber
  loadLocation : UNLocode
  unloadLocation : UNLocode
  loadTime : Timestamp
  unloadTime : Timestamp
deriving Repr, DecidableEq

/-- An ordered plan of legs; the empty itinerary means "unrouted". -/
structure Itinerary where
  legs : List Leg
deriving Repr, DecidableEq

/-- Transport status component of a delivery snapshot. -/
inductive TransportStatus where
  | notReceived
  | inPort
  | onboardCarrier
  | claimed
  | unknown
deriving Repr, DecidableEq

/-- Routing status component of a delivery snapshot. -/
inductive RoutingStatus where
  | notRouted
  | routed
  | misrouted
deriving Repr, DecidableEq

/-- Derived delivery snapshot of a cargo.  The last-update wall-clock
timestamp is assigned by the caller's clock outside the pure derivation
and is therefore not part of the derived value. -/
structure Delivery where
  transportStatus : TransportStatus
  lastKnownLocation : Option UNLocode
  currentVoyage : Option VoyageNumber
  isMisdirected : Bool
  eta : Option Timestamp
  nextExpectedActivity : Option HandlingActivity
  isUnloadedAtDestination : Bool
  routingStatus : RoutingStatus
deriving Repr, DecidableEq

/-- The cargo aggregate (`cargo.Cargo` in Go): tracking identity, origin,
route specification, itinerary and derived delivery. -/
structure Cargo where
  trackingID : TrackingID
  origin : UNLocode
  routeSpecification : RouteSpecification
  itinerary : Itinerary
  delivery : Delivery
deriving Repr, DecidableEq

/-- A registered location (`location.Location` in Go, key fields only). -/
structure Location where
  unLocode : UNLocode
  name : String
deriving Repr, DecidableEq

/-- A registered voyage (`voyage.Voyage` in Go, key field only). -/
structure Voyage where
  number : VoyageNumber
deriving Repr, DecidableEq

/-- Embedding of `collection.Upsert(selector, $set)` on a keyed Mongo
collection: replace the first document whose key equals the new
document's key, append when no document matches. -/
def upsertK {α : Type} (key : α → String) : List α → α → List α
  | [], x => [x]
  | d :: ds, x => if key d == key x then x :: ds else d :: upsertK key ds x

/-- Embedding of `collection.Find(selector).One(..)`: the first document
whose key equals the requested key, if any. -/
def findK {α : Type} (key : α → String) : List α → String → Option α
  | [], _ => none
  | d :: ds, k => if key d == k then some d else findK key ds k

/-- Embedding of `collection.Remove(selector)`: drop the first document
whose key matches, or fail with `mgo.ErrNotFound` when none does. -/
def removeK {α : Type} (key : α → String) : List α → String → Except GoError (List α)
  | [], _ => Except.error GoError.mgoErrNotFound
  | d :: ds, k =>
    if key d == k then Except.ok ds
    else (removeK key ds k).map (fun rest => d :: rest)

theorem findK_eq_none_iff {α : Type} (key : α → String) (docs : List α) (k : String) :
    findK key docs k = none ↔ ∀ x ∈ docs, key x ≠ k := by
  induction docs with
  | nil => simp [findK]
  | cons d ds ih =>
    by_cases hd : key d = k
    · simp [findK, hd]
    · simp [findK, hd, ih]

theorem findK_some {α : Type} (key : α → String) (docs : List α) (k : String) (x : α)
    (h : findK key docs k = some x) : x ∈ docs ∧ key x = k := by
  induction docs with
  | nil => cases h
  | cons d ds ih =>
    by_cases hd : key d = k
    · simp [findK, hd] at h
      subst h
      exact ⟨List.mem_cons_self _ _, hd⟩
    · simp [findK, hd] at h
      rcases ih h with ⟨hmem, hk⟩
      exact ⟨List.mem_cons_of_mem _ hmem, hk⟩

theorem findK_upsertK {α : Type} (key : α → String) (docs : List α) (x : α) :
    findK key (upsertK key docs x) (key x) = some x := by
  induction docs with
  | nil => simp [upsertK, findK]
  | cons d ds ih =>
    by_cases hd : key d = key x
    · simp [upsertK, findK, hd]
    · simp [upsertK, findK, hd, ih]

theorem upsertK_idem {α : Type} (key : α → String) (docs : List α) (x : α) :
    upsertK key (upsertK key docs x) x = upsertK key docs x := by
  induction docs with
  | nil => simp [upsertK]
  | cons d ds ih =>
    by_cases hd : key d = key x
    · simp [upsertK, hd]
    · simp [upsertK, hd, ih]

theorem upsertK_map_key {α : Type} (key : α → String) (docs : List α) (x : α)
    (h : key x ∈ docs.map key) : (upsertK key docs x).map key = docs.map key := by
  induction docs with
  | nil => simp at h
  | cons d ds ih =>
    by_cases hd : key d = key x
    · simp [upsertK, hd]
    · have hx : key x ∈ ds.map key := by
        rcases List.mem_cons.mp h with h1 | h1
        · exact absurd h1.symm hd
        · exact h1
      simp [upsertK, hd, ih hx]

/-- Modelled from the spec: the itinerary matching contract `satisfies`
of the `cargo` package is not under src/.  Per section 4.1 an itinerary
satisfies a route specification iff it is non-empty, its first leg loads
at the origin, its last leg unloads at the destination, and the last
leg's scheduled unload time is at or before the arrival deadline (an
absent deadline imposes no check). -/
def satisfies (it : Itinerary) (rs : RouteSpecification) : Bool :=
  match it.legs.head?, it.legs.getLast? with
  | some fl, some ll =>
    fl.loadLocation == rs.origin && ll.unloadLocation == rs.destination &&
      (match rs.arrivalDeadline with
       | none => true
       | some d => Nat.ble ll.unloadTime d)
  | _, _ => false

/-- Modelled from the spec: the event-expectation contract `isExpected`
of the `cargo` package is not under src/.  Per section 4.1: Receive
matches the first leg's load location; Load/Unload matches some leg
whose voyage and load-or-unload location equal the event's; Claim
matches the last leg's unload location; Customs is always expected when
the cargo has an itinerary; an empty itinerary makes every event
unexpected except Receive at any location. -/
def isExpected (it : Itinerary) (e : HandlingEvent) : Bool :=
  match it.legs with
  | [] =>
    match e.activity.eventType with
    | HandlingEventType.receive => true
    | _ => false
  | legs =>
    match e.activity.eventType with
    | HandlingEventType.receive =>
      match legs.head? with
      | some leg => leg.loadLocation == e.activity.location
      | none => false
    | HandlingEventType.load =>
      legs.any (fun leg =>
        some leg.voyageNumber == e.activity.voyageNumber &&
          leg.loadLocation == e.activity.location)
    | HandlingEventType.unload =>
      legs.any (fun leg =>
        some leg.voyageNumber == e.activity.voyageNumber &&
          leg.unloadLocation == e.activity.location)
    | HandlingEventType.customs => true
    | HandlingEventType.claim =>
      match legs.getLast? with
      | some leg => leg.unloadLocation == e.activity.location
      | none => false

/-- The section 3 ordering on handling events: completion time ascending,
ties broken by registration time ascending. -/
def eventLE (a b : HandlingEvent) : Bool :=
  Nat.blt a.completionTime b.completionTime ||
    (a.completionTime == b.completionTime &&
      Nat.ble a.registrationTime b.registrationTime)

/-- Whether a list of handling events is in the section 3 ordering. -/
def orderedByCompletionThenReg : List HandlingEvent → Bool
  | [] => true
  | [_] => true
  | a :: b :: rest => eventLE a b && orderedByCompletionThenReg (b :: rest)

/-- Stable insertion of one event into a list sorted by `eventLE`. -/
def insertEvent (e : HandlingEvent) : List HandlingEvent → List HandlingEvent
  | [] => [e]
  | x :: xs => if eventLE x e then x :: insertEvent e xs else e :: x :: xs

/-- Insertion sort of a handling history into the section 3 ordering. -/
def sortHistory : List HandlingEvent → List HandlingEvent
  | [] => []
  | e :: es => insertEvent e (sortHistory es)

/-- Modelled from the spec: leg consumption during replay (section 4.1
edge case) is not under src/.  Legs are consumed in itinerary order as
matching events are replayed; a leg is consumed when an Unload event for
its voyage at its unload location is replayed against the earliest
unconsumed leg. -/
def consumeLegs (legs : List Leg) (events : List HandlingEvent) : Nat :=
  events.foldl
    (fun n e =>
      match legs.drop n with
      | [] => n
      | leg :: _ =>
        match e.activity.eventType with
        | HandlingEventType.unload =>
          if some leg.voyageNumber == e.activity.voyageNumber &&
              leg.unloadLocation == e.activity.location
          then n + 1 else n
        | _ => n)
    0

/-- Modelled from the spec: the delivery derivation engine of the `cargo`
package is not under src/.  Per section 4.2 it is a pure function of the
route specification, the itinerary and the handling history: the history
is replayed in the section 3 ordering, the last event fixes the transport
status and last known location, misdirection is sticky over the whole
replayed history, the routing status compares the itinerary against the
route specification, and the next expected activity scans the legs not
yet consumed by the replay. -/
def deriveDeliveryProgress (rs : RouteSpecification) (it : Itinerary)
    (history : List HandlingEvent) : Delivery :=
  let sorted := sortHistory history
  let routing : RoutingStatus :=
    if it.legs.isEmpty then RoutingStatus.notRouted
    else if satisfies it rs then RoutingStatus.routed
    else RoutingStatus.misrouted
  let eta : Option Timestamp :=
    if routing = RoutingStatus.routed then (it.legs.getLast?).map Leg.unloadTime
    else none
  match sorted.getLast? with
  | none =>
    { transportStatus := TransportStatus.notReceived
      lastKnownLocation := none
      currentVoyage := none
      isMisdirected := false
      eta := eta
      nextExpectedActivity :=
        some { eventType := HandlingEventType.receive
               location := rs.origin
               voyageNumber := none }
      isUnloadedAtDestination := false
      routingStatus := routing }
  | some lastEvent =>
    let transport : TransportStatus :=
      match lastEvent.activity.eventType with
      | HandlingEventType.receive => TransportStatus.inPort
      | HandlingEventType.load => TransportStatus.onboardCarrier
      | HandlingEventType.unload => TransportStatus.inPort
      | HandlingEventType.customs => TransportStatus.inPort
      | HandlingEventType.claim => TransportStatus.claimed
    let consumed := consumeLegs it.legs sorted
    let nextActivity : Option HandlingActivity :=
      if it.legs.isEmpty then none
      else
        match lastEvent.activity.eventType with
        | HandlingEventType.claim => none
        | _ =>
          match it.legs.drop consumed with
          | leg :: _ =>
            if transport = TransportStatus.onboardCarrier then
              some { eventType := HandlingEventType.unload
                     location := leg.unloadLocation
                     voyageNumber := some leg.voyageNumber }
            else
              some { eventType := HandlingEventType.load
                     location := leg.loadLocation
                     voyageNumber := some leg.voyageNumber }
          | [] =>
            (it.legs.getLast?).map
              (fun leg =>
                { eventType := HandlingEventType.claim
                  location := leg.unloadLocation
                  voyageNumber := none })
    { transportStatus := transport
      lastKnownLocation := some lastEvent.activity.location
      currentVoyage :=
        if transport = TransportStatus.onboardCarrier then
          lastEvent.activity.voyageNumber
        else none
      isMisdirected := sorted.any (fun e => !(isExpected it e))
      eta := eta
      nextExpectedActivity := nextActivity
      isUnloadedAtDestination :=
        match it.legs.getLast? with
        | some leg =>
          lastEvent.activity.eventType == HandlingEventType.unload &&
            lastEvent.activity.location == leg.unloadLocation
        | none => false
      routingStatus := routing }

/-- The filler string the padded variant's `NewCargoRepository` builds
into the package-level `GARBAGE_CARGO` global: when the `NO_PADDING`
environment toggle is set the loop is skipped and the string stays
empty, otherwise the loop appends the character a `60*1024` times. -/
def GARBAGE_CARGO (noPaddingSet : Bool) : String :=
  if noPaddingSet then "" else String.mk (List.replicate (60 * 1024) 'a')

/-- The cargo collection of the padded variant: regular cargo documents
keyed by `trackingid` and garbage documents keyed by `trackingid_g`,
each in insertion order. -/
structure PaddedCargoState where
  cargoDocs : List Cargo
  garbageDocs : List (TrackingID × String)
deriving Repr, DecidableEq

/-- Key of a garbage document: its `trackingid_g` field. -/
def garbageKey (d : TrackingID × String) : String := d.1

/-- The padded variant's `cargoRepository.Store`: upserts the cargo
keyed by `trackingid` and additionally upserts a garbage document keyed
by `trackingid_g` holding the `GARBAGE_CARGO` string `g`. -/
def paddedStore (g : String) (st : PaddedCargoState) (c : Cargo) : PaddedCargoState :=
  { cargoDocs := upsertK Cargo.trackingID st.cargoDocs c
    garbageDocs := upsertK garbageKey st.garbageDocs (c.trackingID, g) }

namespace cargoRepository

/-- The plain variant's `cargoRepository.Store`: a single upsert keyed by
`trackingid`.  The padded variant performs the same upsert on its
`cargoDocs` (see `paddedStore`). -/
def Store (docs : List Cargo) (c : Cargo) : List Cargo :=
  upsertK Cargo.trackingID docs c

/-- The variants' `cargoRepository.Find`: first document whose
`trackingid` matches; `mgo.ErrNotFound` is mapped to `cargo.ErrUnknown`.
The padded variant's extra read of the garbage document discards its
result and does not affect the outcome. -/
def Find (docs : List Cargo) (id : TrackingID) : Except GoError Cargo :=
  match findK Cargo.trackingID docs id with
  | some c => Except.ok c
  | none => Except.error GoError.cargoErrUnknown

/-- The variants' `cargoRepository.FindAll`: the stored documents when
the underlying query succeeds, the empty list when it errors; the method
itself can never fail.  The query outcome is the `q` parameter. -/
def FindAll (docs : List Cargo) (q : Option GoError) : List Cargo :=
  match q with
  | some _ => []
  | none => docs

/-- The plain variant's `cargoRepository.Remove`: removes the document
keyed by `trackingid`, propagating `mgo.ErrNotFound` unmapped. -/
def Remove (docs : List Cargo) (c : Cargo) : Except GoError (List Cargo) :=
  removeK Cargo.trackingID docs c.trackingID

end cargoRepository

namespace locationRepository

/-- The variants' `locationRepository.Find`: first document whose
`unlocode` matches; `mgo.ErrNotFound` is mapped to `location.ErrUnknown`. -/
def Find (docs : List Location) (locode : UNLocode) : Except GoError Location :=
  match findK Location.unLocode docs locode with
  | some l => Except.ok l
  | none => Except.error GoError.locationErrUnknown

/-- The variants' `locationRepository.FindAll`: all stored documents, the
empty list when the underlying query errors. -/
def FindAll (docs : List Location) (q : Option GoError) : List Location :=
  match q with
  | some _ => []
  | none => docs

end locationRepository

namespace voyageRepository

/-- The variants' `voyageRepository.Find`: first document whose `number`
matches; `mgo.ErrNotFound` is mapped to `voyage.ErrUnknown`. -/
def Find (docs : List Voyage) (num : VoyageNumber) : Except GoError Voyage :=
  match findK Voyage.number docs num with
  | some v => Except.ok v
  | none => Except.error GoError.voyageErrUnknown

end voyageRepository

namespace handlingEventRepository

/-- The variants' `handlingEventRepository.Store`: a plain `Insert`,
appending the event to the collection. -/
def Store (events : List HandlingEvent) (e : HandlingEvent) : List HandlingEvent :=
  events ++ [e]

/-- The variants' `handlingEventRepository.QueryHandlingHistory`: a
`Find({"trackingid": id}).All(..)` with no sort clause, so the matching
documents come back in stored order. -/
def QueryHandlingHistory (events : List HandlingEvent) (id : TrackingID) : HandlingHistory :=
  { handlingEvents := events.filter (fun e => e.trackingID == id) }

end handlingEventRepository

/-- The plain variant's `timeTrack` helper prints the elapsed time for a
named operation; the observable part in the embedding is the emitted
label. -/
def timeTrack (name : String) : String := name

namespace timeCargoRepository

/-- The plain variant's `timeCargoRepository.Remove`: times the call and
delegates to the wrapped repository. -/
def Remove (docs : List Cargo) (c : Cargo) : Except GoError (List Cargo) × String :=
  (cargoRepository.Remove docs c, timeTrack "cargo Remove")

/-- The plain variant's `timeCargoRepository.Store`: times the call and
delegates to the wrapped repository. -/
def Store (docs : List Cargo) (c : Cargo) : List Cargo × String :=
  (cargoRepository.Store docs c, timeTrack "cargo Store")

/-- The plain variant's `timeCargoRepository.Find`: times the call and
delegates to the wrapped repository. -/
def Find (docs : List Cargo) (id : TrackingID) : Except GoError Cargo × String :=
  (cargoRepository.Find docs id, timeTrack "cargo Find")

/-- The plain variant's `timeCargoRepository.FindAll`: times the call and
delegates to the wrapped repository. -/
def FindAll (docs : List Cargo) (q : Option GoError) : List Cargo × String :=
  (cargoRepository.FindAll docs q, timeTrack "cargo FindAll")

end timeCargoRepository

namespace timeLocationRepository

/-- The plain variant's `timeLocationRepository.Find`: times the call
and delegates to the wrapped repository. -/
def Find (docs : List Location) (locode : UNLocode) : Except GoError Location × String :=
  (locationRepository.Find docs locode, timeTrack "location Find")

/-- The plain variant's `timeLocationRepository.FindAll`: times the call
and delegates to the wrapped repository. -/
def FindAll (docs : List Location) (q : Option GoError) : List Location × String :=
  (locationRepository.FindAll docs q, timeTrack "location FindAll")

end timeLocationRepository

namespace timeVoyageRepository

/-- The plain variant's `timeVoyageRepository.Find`: times the call and
delegates to the wrapped repository. -/
def Find (docs : List Voyage) (num : VoyageNumber) : Except GoError Voyage × String :=
  (voyageRepository.Find docs num, timeTrack "voyage Find")

end timeVoyageRepository

namespace timeHandlingEventRepository

/-- The plain variant's `timeHandlingEventRepository.Store`: times the
call and delegates to the wrapped repository. -/
def Store (events : List HandlingEvent) (e : HandlingEvent) : List HandlingEvent × String :=
  (handlingEventRepository.Store events e, timeTrack "event Store")

/-- The plain variant's `timeHandlingEventRepository.QueryHandlingHistory`:
times the call and delegates to the wrapped repository. -/
def QueryHandlingHistory (events : List HandlingEvent) (id : TrackingID) :
    HandlingHistory × String :=
  (handlingEventRepository.QueryHandlingHistory events id,
    timeTrack "event QueryHandlingHistory")

end timeHandlingEventRepository

/-- Modelled from the spec: the cargo aggregate operation
`cargo.Cargo.AssignToRoute` is not under src/ (only its caller in the
booking service is).  Per section 4.3 it replaces the itinerary
unconditionally — even when the itinerary does not satisfy the current
route specification — and then re-derives the delivery from the full
current handling history; it has no error condition. -/
def Cargo.AssignToRoute (history : List HandlingEvent) (c : Cargo) (it : Itinerary) : Cargo :=
  { c with
    itinerary := it
    delivery := deriveDeliveryProgress c.routeSpecification it history }

/-- Modelled from the spec: the cargo aggregate operation
`cargo.Cargo.SpecifyNewRoute` is not under src/ (only its caller in the
booking service is).  Per section 4.3 it fails with InvalidState when the
new route specification's origin equals its destination, and otherwise
replaces the route specification and re-derives the delivery from the
full current handling history. -/
def Cargo.SpecifyNewRoute (history : List HandlingEvent) (c : Cargo)
    (rs : RouteSpecification) : Except GoError Cargo :=
  if rs.origin == rs.destination then Except.error GoError.errInvalidState
  else
    Except.ok
      { c with
        routeSpecification := rs
        delivery := deriveDeliveryProgress rs c.itinerary history }

/-- The booking service's view of the stores: the cargo collection, the
location collection and the handling-event collection. -/
structure ServiceState where
  cargos : List Cargo
  locations : List Location
  events : List HandlingEvent
deriving Repr, DecidableEq

/-- The full current handling history of one tracking identity, as the
event store returns it. -/
def historyFor (st : ServiceState) (id : TrackingID) : List HandlingEvent :=
  (handlingEventRepository.QueryHandlingHistory st.events id).handlingEvents

/-- The booking service's `AssignCargoToRoute`: rejects an empty tracking
id or an itinerary with no legs with `ErrInvalidArgument`, propagates the
cargo lookup failure, and otherwise applies the aggregate's
`AssignToRoute` and stores the result. -/
def AssignCargoToRoute (st : ServiceState) (id : TrackingID) (it : Itinerary) :
    Except GoError ServiceState :=
  if id == "" || it.legs.isEmpty then Except.error GoError.errInvalidArgument
  else
    match cargoRepository.Find st.cargos id with
    | Except.error e => Except.error e
    | Except.ok c =>
      Except.ok
        { st with
          cargos := cargoRepository.Store st.cargos
            (Cargo.AssignToRoute (historyFor st id) c it) }

/-- The call site of `SpecifyNewRoute` inside `ChangeDestination`
discards the aggregate's failure, leaving the cargo unchanged when the
new route specification is rejected. -/
def applyNewRoute (history : List HandlingEvent) (c : Cargo)
    (rs : RouteSpecification) : Cargo :=
  match Cargo.SpecifyNewRoute history c rs with
  | Except.ok c2 => c2
  | Except.error _ => c

/-- The booking service's `ChangeDestination`: rejects an empty tracking
id or destination with `ErrInvalidArgument`, propagates the cargo and
location lookup failures, and otherwise calls the aggregate's
`SpecifyNewRoute` with a specification keeping the cargo's origin and
arrival deadline and carrying the validated destination, then stores the
cargo. -/
def ChangeDestination (st : ServiceState) (id : TrackingID)
    (destination : UNLocode) : Except GoError ServiceState :=
  if id == "" || destination == "" then Except.error GoError.errInvalidArgument
  else
    match cargoRepository.Find st.cargos id with
    | Except.error e => Except.error e
    | Except.ok c =>
      match locationRepository.Find st.locations destination with
      | Except.error e => Except.error e
      | Except.ok l =>
        Except.ok
          { st with
            cargos := cargoRepository.Store st.cargos
              (applyNewRoute (historyFor st id) c
                { origin := c.origin
                  destination := l.unLocode
                  arrivalDeadline := c.routeSpecification.arrivalDeadline }) }

theorem cargoFind_ok (docs : List Cargo) (id : TrackingID) (c : Cargo)
    (h : cargoRepository.Find docs id = Except.ok c) :
    findK Cargo.trackingID docs id = some c := by
  unfold cargoRepository.Find at h
  rcases hf : findK Cargo.trackingID docs id with _ | x
  · rw [hf] at h
    exact Except.noConfusion h
  · rw [hf] at h
    cases h
    rfl

theorem cargoFind_error_iff (docs : List Cargo) (id : TrackingID) :
    cargoRepository.Find docs id = Except.error GoError.cargoErrUnknown ↔
      ∀ x ∈ docs, x.trackingID ≠ id := by
  unfold cargoRepository.Find
  split
  · rename_i x hf
    constructor
    · intro h
      exact Except.noConfusion h
    · intro hall
      exact absurd (findK_some Cargo.trackingID docs id x hf).2
        (hall x (findK_some Cargo.trackingID docs id x hf).1)
  · rename_i hf
    constructor
    · intro _
      exact (findK_eq_none_iff Cargo.trackingID docs id).mp hf
    · intro _
      rfl

theorem cargoFind_of_findK (docs : List Cargo) (id : TrackingID) (c : Cargo)
    (h : findK Cargo.trackingID docs id = some c) :
    cargoRepository.Find docs id = Except.ok c := by
  unfold cargoRepository.Find
  rw [h]

theorem locationFind_error_iff (docs : List Location) (locode : UNLocode) :
    locationRepository.Find docs locode = Except.error GoError.locationErrUnknown ↔
      ∀ x ∈ docs, x.unLocode ≠ locode := by
  unfold locationRepository.Find
  split
  · rename_i x hf
    constructor
    · intro h
      exact Except.noConfusion h
    · intro hall
      exact absurd (findK_some Location.unLocode docs locode x hf).2
        (hall x (findK_some Location.unLocode docs locode x hf).1)
  · rename_i hf
    constructor
    · intro _
      exact (findK_eq_none_iff Location.unLocode docs locode).mp hf
    · intro _
      rfl

theorem locationFind_of_findK (docs : List Location) (locode : UNLocode) (l : Location)
    (h : findK Location.unLocode docs locode = some l) :
    locationRepository.Find docs locode = Except.ok l := by
  unfold locationRepository.Find
  rw [h]

theorem voyageFind_error_iff (docs : List Voyage) (num : VoyageNumber) :
    voyageRepository.Find docs num = Except.error GoError.voyageErrUnknown ↔
      ∀ x ∈ docs, x.number ≠ num := by
  unfold voyageRepository.Find
  split
  · rename_i x hf
    constructor
    · intro h
      exact Except.noConfusion h
    · intro hall
      exact absurd (findK_some Voyage.number docs num x hf).2
        (hall x (findK_some Voyage.number docs num x hf).1)
  · rename_i hf
    constructor
    · intro _
      exact (findK_eq_none_iff Voyage.number docs num).mp hf
    · intro _
      rfl

theorem voyageFind_of_findK (docs : List Voyage) (num : VoyageNumber) (v : Voyage)
    (h : findK Voyage.number docs num = some v) :
    voyageRepository.Find docs num = Except.ok v := by
  unfold voyageRepository.Find
  rw [h]

theorem applyNewRoute_spec (history : List HandlingEvent) (c : Cargo)
    (rs : RouteSpecification) :
    (applyNewRoute history c rs).trackingID = c.trackingID ∧
    (applyNewRoute history c rs).origin = c.origin ∧
    (applyNewRoute history c rs).itinerary = c.itinerary ∧
    ((applyNewRoute history c rs).routeSpecification = rs ∨
      (applyNewRoute history c rs).routeSpecification = c.routeSpecification) := by
  by_cases hb : rs.origin = rs.destination
  · simp [applyNewRoute, Cargo.SpecifyNewRoute, hb]
  · simp [applyNewRoute, Cargo.SpecifyNewRoute, hb]

/-- A sample route specification used to exercise the theorems on
concrete inputs. -/
def sampleRS : RouteSpecification :=
  { origin := "SESTO", destination := "NLRTM", arrivalDeadline := some 100 }

/-- A sample unrouted cargo whose delivery is the section 4.2 derivation
applied to its own state and an empty history. -/
def sampleCargo : Cargo :=
  { trackingID := "T1"
    origin := "SESTO"
    routeSpecification := sampleRS
    itinerary := { legs := [] }
    delivery := deriveDeliveryProgress sampleRS { legs := [] } [] }

/-- A sample registered location. -/
def sampleLocation : Location := { unLocode := "DEHAM", name := "Hamburg" }

/-- A sample registered voyage. -/
def sampleVoyage : Voyage := { number := "V100" }

/-- A sample leg from the sample origin to the sample destination. -/
def sampleLeg : Leg :=
  { voyageNumber := "V100"
    loadLocation := "SESTO"
    unloadLocation := "NLRTM"
    loadTime := 10
    unloadTime := 20 }

/-- A sample one-leg itinerary. -/
def sampleItinerary : Itinerary := { legs := [sampleLeg] }

/-- A sample handling event completed at time 5, registered at time 0. -/
def sampleEvent1 : HandlingEvent :=
  { trackingID := "T1"
    activity :=
      { eventType := HandlingEventType.receive
        location := "SESTO"
        voyageNumber := none }
    completionTime := 5
    registrationTime := 0 }

/-- A sample handling event completed at time 3, registered at time 1:
it was recorded after `sampleEvent1` although it completed earlier. -/
def sampleEvent2 : HandlingEvent :=
  { trackingID := "T1"
    activity :=
      { eventType := HandlingEventType.customs
        location := "SESTO"
        voyageNumber := none }
    completionTime := 3
    registrationTime := 1 }

/-- A sample event store holding the two sample events in the order they
were recorded. -/
def sampleEvents : List HandlingEvent := [sampleEvent1, sampleEvent2]

/-- A sample booking-service state holding the sample cargo and the
sample location. -/
def sampleServiceState : ServiceState :=
  { cargos := [sampleCargo]
    locations := [sampleLocation]
    events := [] }

/-- The sample state after changing the sample cargo's destination to
the sample registered location. -/
def sampleChangedState : ServiceState :=
  match ChangeDestination sampleServiceState "T1" "DEHAM" with
  | Except.ok st => st
  | Except.error _ => sampleServiceState

/-- The sample cargo as stored after the destination change. -/
def sampleChangedCargo : Cargo :=
  match cargoRepository.Find sampleChangedState.cargos "T1" with
  | Except.ok c => c
  | Except.error _ => sampleCargo

/-- C1 (counterexample): `QueryHandlingHistory` issues no sort clause, so
for the concrete store holding `sampleEvent1` (completed at 5) before
`sampleEvent2` (completed at 3) it returns the recorded events in stored
order, which is not the section 3 ordering by completion time ascending. -/
theorem queryHandlingHistory_unsorted_cex :
    handlingEventRepository.QueryHandlingHistory sampleEvents "T1" =
      { handlingEvents := [sampleEvent1, sampleEvent2] } ∧
    orderedByCompletionThenReg
      (handlingEventRepository.QueryHandlingHistory sampleEvents "T1").handlingEvents =
      false :=
  ⟨rfl, rfl⟩

/-- C1 (amended): for every tracking identity, `QueryHandlingHistory`
returns exactly the handling events recorded for that identity, in
stored (insertion) order — a sublist of the store whose members are
precisely the stored events carrying that identity; it does not sort
them by completion time. -/
theorem queryHandlingHistory_store_order (events : List HandlingEvent) (id : TrackingID) :
    List.Sublist
      (handlingEventRepository.QueryHandlingHistory events id).handlingEvents events ∧
    ∀ e, e ∈ (handlingEventRepository.QueryHandlingHistory events id).handlingEvents ↔
      e ∈ events ∧ e.trackingID = id := by
  constructor
  · exact List.filter_sublist events
  · intro e
    simp [handlingEventRepository.QueryHandlingHistory]

/-- C1 (witness): the amended theorem evaluated on the sample store. -/
theorem queryHandlingHistory_store_order_witness :
    sampleEvent1 ∈
      (handlingEventRepository.QueryHandlingHistory sampleEvents "T1").handlingEvents :=
  ((queryHandlingHistory_store_order sampleEvents "T1").2 sampleEvent1).mpr
    ⟨by simp [sampleEvents], rfl⟩

/-- C2 (counterexample): `AssignCargoToRoute` does return errors: on the
sample state, whose cargo store does hold a cargo with tracking identity
T1, assigning the empty itinerary is rejected with `ErrInvalidArgument`
instead of replacing the itinerary. -/
theorem assignCargoToRoute_error_cex :
    cargoRepository.Find sampleServiceState.cargos "T1" = Except.ok sampleCargo ∧
    AssignCargoToRoute sampleServiceState "T1" { legs := [] } =
      Except.error GoError.errInvalidArgument :=
  ⟨rfl, rfl⟩

/-- C2 (amended): the aggregate-level `AssignToRoute` replaces the
itinerary unconditionally — with no check that it satisfies the route
specification — and has no error condition; the service-level
`AssignCargoToRoute`, however, rejects an empty tracking id or an
itinerary with no legs with `ErrInvalidArgument` and propagates the
cargo lookup failure; when those guards pass it stores the cargo with
the itinerary replaced. -/
theorem assignCargoToRoute_replaces_when_valid (st : ServiceState) (id : TrackingID)
    (it : Itinerary) (c : Cargo) (hist : List HandlingEvent) (c0 : Cargo) (it0 : Itinerary)
    (hguard : (id == "" || it.legs.isEmpty) = false)
    (hfind : cargoRepository.Find st.cargos id = Except.ok c) :
    (Cargo.AssignToRoute hist c0 it0).itinerary = it0 ∧
    AssignCargoToRoute st id it =
      Except.ok
        { st with
          cargos :=
            cargoRepository.Store st.cargos
              (Cargo.AssignToRoute (historyFor st id) c it) } ∧
    cargoRepository.Find
      (cargoRepository.Store st.cargos (Cargo.AssignToRoute (historyFor st id) c it)) id =
      Except.ok (Cargo.AssignToRoute (historyFor st id) c it) := by
  have hkey : c.trackingID = id :=
    (findK_some Cargo.trackingID st.cargos id c (cargoFind_ok st.cargos id c hfind)).2
  refine ⟨rfl, ?_, ?_⟩
  · unfold AssignCargoToRoute
    rw [hguard, hfind]
    rfl
  · have hAkey : (Cargo.AssignToRoute (historyFor st id) c it).trackingID = id := hkey
    have h2 := findK_upsertK Cargo.trackingID st.cargos
      (Cargo.AssignToRoute (historyFor st id) c it)
    rw [hAkey] at h2
    unfold cargoRepository.Find
    rw [show findK Cargo.trackingID
        (cargoRepository.Store st.cargos (Cargo.AssignToRoute (historyFor st id) c it)) id =
        some (Cargo.AssignToRoute (historyFor st id) c it) from h2]

/-- C2 (witness): the amended theorem evaluated on the sample state and
the sample one-leg itinerary. -/
theorem assignCargoToRoute_replaces_when_valid_witness :
    cargoRepository.Find
      (cargoRepository.Store sampleServiceState.cargos
        (Cargo.AssignToRoute (historyFor sampleServiceState "T1") sampleCargo
          sampleItinerary)) "T1" =
      Except.ok
        (Cargo.AssignToRoute (historyFor sampleServiceState "T1") sampleCargo
          sampleItinerary) :=
  (assignCargoToRoute_replaces_when_valid sampleServiceState "T1" sampleItinerary
    sampleCargo [] sampleCargo sampleItinerary rfl rfl).2.2

/-- C3: the cargo store's `Store` is an idempotent upsert keyed by
tracking identity, in both variants: storing twice equals storing once,
a store whose keys already contain the cargo's identity keeps exactly
the same key sequence (the record is replaced, not duplicated), and the
stored record is found under its key afterwards. -/
theorem cargoStore_idempotent_upsert (docs : List Cargo) (c : Cargo) (g : String)
    (st : PaddedCargoState) :
    cargoRepository.Store (cargoRepository.Store docs c) c = cargoRepository.Store docs c ∧
    paddedStore g (paddedStore g st c) c = paddedStore g st c ∧
    findK Cargo.trackingID (cargoRepository.Store docs c) c.trackingID = some c ∧
    (c.trackingID ∈ docs.map Cargo.trackingID →
      (cargoRepository.Store docs c).map Cargo.trackingID = docs.map Cargo.trackingID) := by
  refine ⟨upsertK_idem Cargo.trackingID docs c, ?_, findK_upsertK Cargo.trackingID docs c,
    upsertK_map_key Cargo.trackingID docs c⟩
  simp [paddedStore, upsertK_idem]

/-- C3 (witness): the theorem evaluated on a store already holding the
sample cargo. -/
theorem cargoStore_idempotent_upsert_witness :
    (cargoRepository.Store [sampleCargo] sampleCargo).map Cargo.trackingID =
      [sampleCargo].map Cargo.trackingID :=
  (cargoStore_idempotent_upsert [sampleCargo] sampleCargo ""
    { cargoDocs := [], garbageDocs := [] }).2.2.2 (by simp)

/-- C4: the repository `Find` operations return their `ErrUnknown` error
exactly when no record with the requested key exists, and return a
stored record bearing that key when one does. -/
theorem find_unknown_exactly_when_absent (cargos : List Cargo) (locations : List Location)
    (voyages : List Voyage) (id : TrackingID) (locode : UNLocode) (num : VoyageNumber)
    (c : Cargo) (l : Location) (v : Voyage) :
    (cargoRepository.Find cargos id = Except.error GoError.cargoErrUnknown ↔
      ∀ x ∈ cargos, x.trackingID ≠ id) ∧
    (findK Cargo.trackingID cargos id = some c →
      cargoRepository.Find cargos id = Except.ok c ∧ c ∈ cargos ∧ c.trackingID = id) ∧
    (locationRepository.Find locations locode = Except.error GoError.locationErrUnknown ↔
      ∀ x ∈ locations, x.unLocode ≠ locode) ∧
    (findK Location.unLocode locations locode = some l →
      locationRepository.Find locations locode = Except.ok l ∧ l ∈ locations ∧
        l.unLocode = locode) ∧
    (voyageRepository.Find voyages num = Except.error GoError.voyageErrUnknown ↔
      ∀ x ∈ voyages, x.number ≠ num) ∧
    (findK Voyage.number voyages num = some v →
      voyageRepository.Find voyages num = Except.ok v ∧ v ∈ voyages ∧ v.number = num) := by
  refine ⟨?_, ?_, ?_, ?_, ?_, ?_⟩
  · exact cargoFind_error_iff cargos id
  · intro h
    exact ⟨cargoFind_of_findK cargos id c h,
      (findK_some Cargo.trackingID cargos id c h).1,
      (findK_some Cargo.trackingID cargos id c h).2⟩
  · exact locationFind_error_iff locations locode
  · intro h
    exact ⟨locationFind_of_findK locations locode l h,
      (findK_some Location.unLocode locations locode l h).1,
      (findK_some Location.unLocode locations locode l h).2⟩
  · exact voyageFind_error_iff voyages num
  · intro h
    exact ⟨voyageFind_of_findK voyages num v h,
      (findK_some Voyage.number voyages num v h).1,
      (findK_some Voyage.number voyages num v h).2⟩

/-- C4 (witness): the theorem evaluated on singleton stores. -/
theorem find_unknown_exactly_when_absent_witness :
    cargoRepository.Find [sampleCargo] "T1" = Except.ok sampleCargo ∧
    sampleCargo ∈ [sampleCargo] ∧ sampleCargo.trackingID = "T1" :=
  (find_unknown_exactly_when_absent [sampleCargo] [sampleLocation] [sampleVoyage]
    "T1" "DEHAM" "V100" sampleCargo sampleLocation sampleVoyage).2.1 rfl

/-- C5: in the padded variant, when the `NO_PADDING` toggle is unset the
construction-time filler string holds `60*1024` bytes (tens of
kilobytes) and every `Store` upserts a garbage record carrying it under
the cargo's tracking identity; when the toggle is set the garbage record
written by `Store` carries the empty string — no filler data. -/
theorem padding_toggle (st : PaddedCargoState) (c : Cargo) :
    (GARBAGE_CARGO false).length = 60 * 1024 ∧
    10 * 1024 ≤ (GARBAGE_CARGO false).length ∧
    findK garbageKey (paddedStore (GARBAGE_CARGO false) st c).garbageDocs c.trackingID =
      some (c.trackingID, GARBAGE_CARGO false) ∧
    GARBAGE_CARGO true = "" ∧
    findK garbageKey (paddedStore (GARBAGE_CARGO true) st c).garbageDocs c.trackingID =
      some (c.trackingID, "") := by
  have hlen : (GARBAGE_CARGO false).length = 60 * 1024 := by
    show (List.replicate (60 * 1024) 'a').length = 60 * 1024
    exact List.length_replicate (60 * 1024) 'a'
  refine ⟨hlen, ?_, ?_, rfl, ?_⟩
  · rw [hlen]
    norm_num
  · exact findK_upsertK garbageKey st.garbageDocs (c.trackingID, GARBAGE_CARGO false)
  · exact findK_upsertK garbageKey st.garbageDocs (c.trackingID, GARBAGE_CARGO true)

/-- C5 (witness): the theorem evaluated on an empty padded store and the
sample cargo. -/
theorem padding_toggle_witness :
    (GARBAGE_CARGO false).length = 60 * 1024 :=
  (padding_toggle { cargoDocs := [], garbageDocs := [] } sampleCargo).1

/-- C6: the delivery derivation engine is deterministic — two invocations
on the same route specification, itinerary and handling history yield
identical delivery values. -/
theorem derivation_deterministic (rs : RouteSpecification) (it : Itinerary)
    (history : List HandlingEvent) (d1 d2 : Delivery)
    (h1 : d1 = deriveDeliveryProgress rs it history)
    (h2 : d2 = deriveDeliveryProgress rs it history) : d1 = d2 :=
  h1.trans h2.symm

/-- C6 (witness): two derivations on the sample triple agree. -/
theorem derivation_deterministic_witness :
    deriveDeliveryProgress sampleRS sampleItinerary sampleEvents =
      deriveDeliveryProgress sampleRS sampleItinerary sampleEvents :=
  derivation_deterministic sampleRS sampleItinerary sampleEvents
    (deriveDeliveryProgress sampleRS sampleItinerary sampleEvents)
    (deriveDeliveryProgress sampleRS sampleItinerary sampleEvents) rfl rfl

/-- C7: `SpecifyNewRoute` — the aggregate operation `ChangeDestination`
reaches — fails with the InvalidState error exactly when the new route
specification's origin equals its destination, and otherwise succeeds,
replacing the route specification while keeping the tracking identity,
origin field and itinerary. -/
theorem specifyNewRoute_invalid_state (history : List HandlingEvent) (c : Cargo)
    (rs : RouteSpecification) (c2 : Cargo) :
    (rs.origin = rs.destination →
      Cargo.SpecifyNewRoute history c rs = Except.error GoError.errInvalidState) ∧
    (rs.origin ≠ rs.destination →
      (Cargo.SpecifyNewRoute history c rs).isOk = true) ∧
    (Cargo.SpecifyNewRoute history c rs = Except.ok c2 →
      rs.origin ≠ rs.destination ∧ c2.routeSpecification = rs ∧
        c2.trackingID = c.trackingID ∧ c2.origin = c.origin ∧
        c2.itinerary = c.itinerary) := by
  by_cases hb : rs.origin = rs.destination
  · refine ⟨fun _ => ?_, fun hne => absurd hb hne, fun h => ?_⟩
    · simp [Cargo.SpecifyNewRoute, hb]
    · rw [show Cargo.SpecifyNewRoute history c rs =
          Except.error GoError.errInvalidState by
        simp [Cargo.SpecifyNewRoute, hb]] at h
      exact Except.noConfusion h
  · refine ⟨fun heq => absurd heq hb, fun _ => ?_, fun h => ?_⟩
    · simp [Cargo.SpecifyNewRoute, hb, Except.isOk, Except.toBool]
    · rw [show Cargo.SpecifyNewRoute history c rs =
          Except.ok
            { c with
              routeSpecification := rs
              delivery := deriveDeliveryProgress rs c.itinerary history } by
        simp [Cargo.SpecifyNewRoute, hb]] at h
      cases h
      exact ⟨hb, rfl, rfl, rfl, rfl⟩

/-- C7 (witness): on the sample cargo, a specification whose origin
equals its destination is rejected with InvalidState. -/
theorem specifyNewRoute_invalid_state_witness :
    Cargo.SpecifyNewRoute [] sampleCargo
      { origin := "SESTO", destination := "SESTO", arrivalDeadline := none } =
      Except.error GoError.errInvalidState :=
  (specifyNewRoute_invalid_state [] sampleCargo
    { origin := "SESTO", destination := "SESTO", arrivalDeadline := none }
    sampleCargo).1 rfl

/-- C8: `FindAll` on the cargo store never fails — its result type
carries no error — and it returns the stored cargos when the underlying
query succeeds and the empty sequence when the query errors. -/
theorem findAll_never_fails (docs : List Cargo) (e : GoError) :
    cargoRepository.FindAll docs none = docs ∧
    cargoRepository.FindAll docs (some e) = [] :=
  ⟨rfl, rfl⟩

/-- C8 (witness): `FindAll` evaluated on a singleton store, with the
query succeeding and with the query erroring. -/
theorem findAll_never_fails_witness :
    cargoRepository.FindAll [sampleCargo] none = [sampleCargo] ∧
    cargoRepository.FindAll [sampleCargo] (some GoError.mgoErrNotFound) = [] :=
  findAll_never_fails [sampleCargo] GoError.mgoErrNotFound

/-- C9: a successful `ChangeDestination` preserves the cargo's tracking
identity, origin field and arrival deadline; when the cargo's origin
field agrees with its route specification's origin (as every cargo
created by the service has), the specification's origin is unchanged as
well — only the destination can differ. -/
theorem changeDestination_frame (st st' : ServiceState) (id : TrackingID)
    (dest : UNLocode) (c c' : Cargo)
    (hfind : cargoRepository.Find st.cargos id = Except.ok c)
    (hok : ChangeDestination st id dest = Except.ok st')
    (hfind' : cargoRepository.Find st'.cargos id = Except.ok c') :
    c'.trackingID = c.trackingID ∧ c'.origin = c.origin ∧
    c'.routeSpecification.arrivalDeadline = c.routeSpecification.arrivalDeadline ∧
    (c.origin = c.routeSpecification.origin →
      c'.routeSpecification.origin = c.routeSpecification.origin) := by
  have hkey : c.trackingID = id :=
    (findK_some Cargo.trackingID st.cargos id c (cargoFind_ok st.cargos id c hfind)).2
  unfold ChangeDestination at hok
  split at hok
  · exact Except.noConfusion hok
  · split at hok
    · exact Except.noConfusion hok
    · rename_i c0 heq
      rw [hfind] at heq
      cases heq
      split at hok
      · exact Except.noConfusion hok
      · rename_i l hloc
        cases hok
        dsimp only at hfind'
        obtain ⟨hAtid, hAorig, hAitin, hArs⟩ :=
          applyNewRoute_spec (historyFor st id) c
            { origin := c.origin
              destination := l.unLocode
              arrivalDeadline := c.routeSpecification.arrivalDeadline }
        have hAkey :
            (applyNewRoute (historyFor st id) c
              { origin := c.origin
                destination := l.unLocode
                arrivalDeadline := c.routeSpecification.arrivalDeadline }).trackingID =
              id := hAtid.trans hkey
        have h2 := findK_upsertK Cargo.trackingID st.cargos
          (applyNewRoute (historyFor st id) c
            { origin := c.origin
              destination := l.unLocode
              arrivalDeadline := c.routeSpecification.arrivalDeadline })
        rw [hAkey] at h2
        have hFindA :
            cargoRepository.Find
              (cargoRepository.Store st.cargos
                (applyNewRoute (historyFor st id) c
                  { origin := c.origin
                    destination := l.unLocode
                    arrivalDeadline := c.routeSpecification.arrivalDeadline })) id =
              Except.ok
                (applyNewRoute (historyFor st id) c
                  { origin := c.origin
                    destination := l.unLocode
                    arrivalDeadline := c.routeSpecification.arrivalDeadline }) :=
          cargoFind_of_findK _ _ _ h2
        rw [hFindA] at hfind'
        cases hfind'
        refine ⟨hAtid, hAorig, ?_, ?_⟩
        · rcases hArs with h | h
          · rw [h]
          · rw [h]
        · intro hco
          rcases hArs with h | h
          · rw [h]
            exact hco
          · rw [h]

/-- C9 (witness): the theorem evaluated on the sample state, changing
the sample cargo's destination to the sample registered location. -/
theorem changeDestination_frame_witness :
    sampleChangedCargo.trackingID = sampleCargo.trackingID ∧
    sampleChangedCargo.origin = sampleCargo.origin ∧
    sampleChangedCargo.routeSpecification.arrivalDeadline =
      sampleCargo.routeSpecification.arrivalDeadline ∧
    sampleChangedCargo.routeSpecification.origin =
      sampleCargo.routeSpecification.origin := by
  have h := changeDestination_frame sampleServiceState sampleChangedState "T1" "DEHAM"
    sampleCargo sampleChangedCargo rfl rfl rfl
  exact ⟨h.1, h.2.1, h.2.2.1, h.2.2.2 rfl⟩

/-- C10: each timing wrapper is observationally equivalent to its
wrapped repository: for every operation and input, the first component
of the wrapper's result is exactly the delegate's result. -/
theorem time_wrappers_delegate (docs : List Cargo) (locs : List Location)
    (voys : List Voyage) (events : List HandlingEvent) (c : Cargo) (id : TrackingID)
    (locode : UNLocode) (num : VoyageNumber) (e : HandlingEvent) (q : Option GoError) :
    (timeCargoRepository.Remove docs c).1 = cargoRepository.Remove docs c ∧
    (timeCargoRepository.Store docs c).1 = cargoRepository.Store docs c ∧
    (timeCargoRepository.Find docs id).1 = cargoRepository.Find docs id ∧
    (timeCargoRepository.FindAll docs q).1 = cargoRepository.FindAll docs q ∧
    (timeLocationRepository.Find locs locode).1 = locationRepository.Find locs locode ∧
    (timeLocationRepository.FindAll locs q).1 = locationRepository.FindAll locs q ∧
    (timeVoyageRepository.Find voys num).1 = voyageRepository.Find voys num ∧
    (timeHandlingEventRepository.Store events e).1 =
      handlingEventRepository.Store events e ∧
    (timeHandlingEventRepository.QueryHandlingHistory events id).1 =
      handlingEventRepository.QueryHandlingHistory events id :=
  ⟨rfl, rfl, rfl, rfl, rfl, rfl, rfl, rfl, rfl⟩

/-- C10 (witness): the wrapper and delegate agree on a concrete find. -/
theorem time_wrappers_delegate_witness :
    (timeCargoRepository.Find [sampleCargo] "T1").1 =
      cargoRepository.Find [sampleCargo] "T1" :=
  (time_wrappers_delegate [sampleCargo] [sampleLocation] [sampleVoyage] sampleEvents
    sampleCargo "T1" "DEHAM" "V100" sampleEvent1 none).2.2.1

end Goddd
